import Mathlib

/-!
Verification development for the component-discovery pipeline of the Sourced
backend (Backend/services/sam3d_service.py and Backend/routes/generate_3d.py).

The Python code is shallowly embedded over exact rational arithmetic:

* pixel coordinates and image dimensions are naturals;
* mask-quality scores, normalized bounding boxes, positions and scales are
  rationals (the Python floats, read exactly);
* binary masks (numpy 2D bool arrays) are lists of rows of booleans;
* the service object's mutable fields become an explicit state record, and
  each exception-raising region of the code becomes an explicit outcome
  parameter, so exceptional control flow is explicit state passing;
* the code compares the Euclidean center distance sqrt(dx^2+dy^2) against
  0.1; since both sides are nonnegative this is equivalent to comparing the
  squared distance against 1/100, which is how the embedding states it in
  order to stay inside ℚ.

External oracles (the SAM model's per-point mask outputs, the Gemini
generative/enrichment responses, wall-clock time) are passed as explicit
arguments, so every function here is a computable, deterministic function of
its inputs exactly as the corresponding Python is a function of the same
effects.
-/

namespace Sourced

/-- A 3-vector of rationals, used for the position, scale and rotation
triples stored in component dicts. -/
structure Vec3 where
  x : ℚ
  y : ℚ
  z : ℚ
deriving DecidableEq, Repr

/-- A component dict as built by generate_3d_masks_local in
sam3d_service.py: keys id, name, position, scale, confidence, source
(every dict appended there carries exactly these keys). -/
structure SamComponent where
  id : String
  name : String
  position : Vec3
  scale : Vec3
  confidence : ℚ
  source : String
deriving DecidableEq, Repr

/-- Default element used with List.getD when stating facts about list
entries at in-range indices. -/
def dummyComponent : SamComponent :=
  { id := "", name := "", position := ⟨0, 0, 0⟩, scale := ⟨0, 0, 0⟩,
    confidence := 0, source := "" }

/-- The local variables of one accepted detection inside the per-point loop
of generate_3d_masks_local: normalized bbox center, width, height, and the
best-mask quality score. -/
structure RawCand where
  xCenter : ℚ
  yCenter : ℚ
  w : ℚ
  h : ℚ
  score : ℚ
deriving DecidableEq, Repr

/-- A binary mask (numpy 2D bool array), as a list of rows. -/
abbrev Mask : Type := List (List Bool)

/-- np.any of one row of booleans. -/
def rowAny (row : List Bool) : Bool := row.any id

/-- np.any(mask, axis=1): one boolean per row. -/
def rowsAny (m : Mask) : List Bool := m.map rowAny

/-- Pointwise or of two boolean lists (padding the shorter with false);
on the rectangular rows of a mask this folds to np.any(mask, axis=0). -/
def orMerge : List Bool → List Bool → List Bool
  | [], ys => ys
  | xs, [] => xs
  | x :: xs, y :: ys => (x || y) :: orMerge xs ys

/-- np.any(mask, axis=0): one boolean per column. -/
def colsAny (m : Mask) : List Bool := m.foldr orMerge []

/-- Index of the first true entry, i.e. np.where(l)[0][0]. -/
def firstTrue : List Bool → Option ℕ
  | [] => none
  | b :: rest => if b then some 0 else (firstTrue rest).map (· + 1)

/-- Index of the last true entry, i.e. np.where(l)[0][-1]. -/
def lastTrue (l : List Bool) : Option ℕ :=
  (firstTrue l.reverse).map (fun k => l.length - 1 - k)

/-- The bounding box (ymin, ymax, xmin, xmax) of the true pixels of a mask,
as computed from np.where(rows) and np.where(cols); none when the mask has
no true pixel, corresponding to the guard
if not np.any(rows) or not np.any(cols): continue. -/
def bboxOfMask (m : Mask) : Option (ℕ × ℕ × ℕ × ℕ) :=
  match firstTrue (rowsAny m), lastTrue (rowsAny m),
        firstTrue (colsAny m), lastTrue (colsAny m) with
  | some ymin, some ymax, some xmin, some xmax => some (ymin, ymax, xmin, xmax)
  | _, _, _, _ => none

/-- torch.argmax over a score list together with the value at that index:
returns the first index attaining the maximum, none on the empty list. -/
def argmax (l : List ℚ) : Option (ℕ × ℚ) :=
  (l.foldl
    (fun acc v =>
      match acc with
      | (idx, none) => (idx + 1, some (idx, v))
      | (idx, some (bi, bv)) =>
          (idx + 1, if bv < v then some (idx, v) else some (bi, bv)))
    ((0 : ℕ), (none : Option (ℕ × ℚ)))).2

/-- Region Extractor and Filter: given the best score and the pixel bbox
(ymin, ymax, xmin, xmax) of the best mask, normalize the bbox and apply the
whole-image filter (w > 0.9 and h > 0.9) and the noise filter
(w < 0.05 or h < 0.05), in source order; emits the per-point candidate. -/
def emitComponent (width height : ℕ) (score : ℚ) (bb : ℕ × ℕ × ℕ × ℕ) :
    Option RawCand :=
  let ymin := bb.1
  let ymax := bb.2.1
  let xmin := bb.2.2.1
  let xmax := bb.2.2.2
  let xc : ℚ := ((xmin : ℚ) + (xmax : ℚ)) / 2 / (width : ℚ)
  let yc : ℚ := ((ymin : ℚ) + (ymax : ℚ)) / 2 / (height : ℚ)
  let w : ℚ := ((xmax : ℚ) - (xmin : ℚ)) / (width : ℚ)
  let h : ℚ := ((ymax : ℚ) - (ymin : ℚ)) / (height : ℚ)
  if (9 : ℚ)/10 < w ∧ (9 : ℚ)/10 < h then none
  else if w < 1/20 ∨ h < 1/20 then none
  else some ⟨xc, yc, w, h, score⟩

/-- One prompt point of the per-point loop of generate_3d_masks_local:
select the best mask by score (torch.argmax), reject below the 0.70 quality
floor, skip masks with no true pixel, then extract and filter the bbox.
The scores list and masks list are the model's outputs for this point. -/
def processPoint (width height : ℕ) (scores : List ℚ) (masks : List Mask) :
    Option RawCand :=
  match argmax scores with
  | none => none
  | some bs =>
      if bs.2 < (7 : ℚ)/10 then none
      else
        match bboxOfMask (masks.getD bs.1 []) with
        | none => none
        | some bb => emitComponent width height bs.2 bb

/-- Center of a candidate in normalized [0,1] image space. -/
def candCenter (c : RawCand) : ℚ × ℚ := (c.xCenter, c.yCenter)

/-- Center of an accepted component recovered from its stored position, as
the dedup loop computes it: ex_x = position[0]/2 + 0.5,
ex_y = 0.5 - position[1]/2. -/
def recoveredCenter (e : SamComponent) : ℚ × ℚ :=
  (e.position.x / 2 + 1/2, 1/2 - e.position.y / 2)

/-- Squared Euclidean distance between two points of normalized image
space.  The source compares sqrt of this value against 0.1; both sides
being nonnegative, that comparison is equivalent to comparing this squared
distance against 1/100, which keeps the embedding in ℚ. -/
def sqDist (a b : ℚ × ℚ) : ℚ := (a.1 - b.1)^2 + (a.2 - b.2)^2

/-- The in-place update applied to an existing component when a new
candidate within the merge radius has strictly higher confidence: x and y
of position are replaced (z retained), scale and confidence are replaced;
id, name and source are untouched. -/
def overwriteWith (cand : RawCand) (e : SamComponent) : SamComponent :=
  { e with
    position := ⟨(cand.xCenter - 1/2) * 2, (1/2 - cand.yCenter) * 2, e.position.z⟩,
    scale := ⟨cand.w, cand.h, 1/50⟩,
    confidence := cand.score }

/-- The dedup for-loop over the accepted list, with its break: scan for the
first accepted component whose recovered center is within the merge radius
of the candidate; on a hit return the list with that component overwritten
when the candidate's confidence is strictly higher (else unchanged); none
when no accepted component is within the radius. -/
def dedupScan (cand : RawCand) : List SamComponent → Option (List SamComponent)
  | [] => none
  | e :: rest =>
      if sqDist (candCenter cand) (recoveredCenter e) < 1/100 then
        some ((if e.confidence < cand.score then overwriteWith cand e else e) :: rest)
      else
        (dedupScan cand rest).map (fun rest' => e :: rest')

/-- The dict appended for a non-duplicate candidate: id sam_<count>, name
Component <count+1>, position with z_depth = w * h * 0.5, scale
[w, h, 0.02], confidence = score, source local_sam. -/
def freshComponent (cand : RawCand) (count : ℕ) : SamComponent :=
  { id := "sam_" ++ toString count,
    name := "Component " ++ toString (count + 1),
    position := ⟨(cand.xCenter - 1/2) * 2, (1/2 - cand.yCenter) * 2,
                 cand.w * cand.h * (1/2)⟩,
    scale := ⟨cand.w, cand.h, 1/50⟩,
    confidence := cand.score,
    source := "local_sam" }

/-- Position triple a candidate receives when appended (also the x and y an
overwrite writes, with z there retained instead). -/
def candPosition (c : RawCand) : Vec3 :=
  ⟨(c.xCenter - 1/2) * 2, (1/2 - c.yCenter) * 2, c.w * c.h * (1/2)⟩

/-- Scale triple a candidate receives: [w, h, 0.02]. -/
def candScale (c : RawCand) : Vec3 := ⟨c.w, c.h, 1/50⟩

/-- One iteration of the dedup/merge engine on the accepted list: merge
into the first in-radius component or append as a fresh component. -/
def addCandidate (comps : List SamComponent) (cand : RawCand) :
    List SamComponent :=
  match dedupScan cand comps with
  | some comps' => comps'
  | none => comps ++ [freshComponent cand comps.length]

/-- Grid density of the prompt sampler: n_points = 6. -/
def nPoints : ℕ := 6

/-- One grid coordinate: int((i + 0.5) * width / n_points).  Python's int()
truncates toward zero; the operand being nonnegative this is the floor,
and with exact arithmetic (i + 0.5) * width / 6 = (2i+1) * width / 12, so
the embedded value is natural-number division by 12. -/
def gridCoord (i width : ℕ) : ℕ := ((2 * i + 1) * width) / (2 * nPoints)

/-- The Grid Prompt Sampler: the 36 points of the 6 by 6 grid, outer loop
over i (x), inner loop over j (y), in source order. -/
def gridPoints (width height : ℕ) : List (ℕ × ℕ) :=
  (List.range nPoints).flatMap
    (fun i => (List.range nPoints).map
      (fun j => (gridCoord i width, gridCoord j height)))

/-- The component list computed by one run of generate_3d_masks_local on an
image of the given dimensions, the model's outputs per prompt point being
supplied by the oracle argument: fold the per-point processing and the
dedup/merge engine over the grid points in order.  Batching in the source
slices this same point sequence into contiguous batches purely for
throughput, so per-point processing order is unchanged. -/
def generate_3d_masks_local_output (width height : ℕ)
    (model : ℕ × ℕ → List ℚ × List Mask) : List SamComponent :=
  (gridPoints width height).foldl
    (fun comps pt =>
      match processPoint width height (model pt).1 (model pt).2 with
      | none => comps
      | some cand => addCandidate comps cand)
    []

/-- Pairwise dedup invariant between two accepted components: recovered
centers at squared distance at least 1/100 (i.e. distance at least 0.1). -/
def farApart (a b : SamComponent) : Prop :=
  1/100 ≤ sqDist (recoveredCenter a) (recoveredCenter b)

/-- The claimed ComponentSet invariant: all pairs of accepted components
are far apart. -/
def pairwiseFar (l : List SamComponent) : Prop := l.Pairwise farApart

/-- Rectangular test mask on an n by n image: true exactly on
[xmin, xmax] * [ymin, ymax]. -/
def rectMask (n xmin xmax ymin ymax : ℕ) : Mask :=
  (List.range n).map
    (fun y => (List.range n).map
      (fun x => decide (ymin ≤ y ∧ y ≤ ymax ∧ xmin ≤ x ∧ x ≤ xmax)))

/-- Concrete model oracle on a 20 by 20 image: three grid points return a
high-scoring rectangular mask (centers 0.2, 0.35 and 0.275 on the x axis at
y = 0.5, the last with the highest confidence); every other point returns a
single zero score, which the 0.70 quality floor rejects. -/
def demoOracle (p : ℕ × ℕ) : List ℚ × List Mask :=
  if p = (1, 1) then ([4/5], [rectMask 20 1 7 7 13])
  else if p = (5, 1) then ([4/5], [rectMask 20 4 10 7 13])
  else if p = (8, 1) then ([9/10], [rectMask 20 3 8 7 13])
  else ([0], [])

/-- Service state of SAM3DService: the model and processor fields (None or
a loaded handle).  The device string and the torch cache side effects do
not influence any claim and are not tracked. -/
structure SamServiceState where
  model : Option Unit
  processor : Option Unit
deriving DecidableEq, Repr

/-- How far load_local_model gets before its try block succeeds or raises:
full success assigns both fields; an exception before the model assignment
(import failure, SamModel.from_pretrained failure) leaves the state
untouched; an exception after the model assignment (processor load) leaves
the model assigned and the processor untouched.  The except clause only
prints, so every outcome returns normally. -/
inductive LoadOutcome
  | success
  | failEarly
  | failAfterModel
deriving DecidableEq, Repr

/-- load_local_model as a state transition under a given outcome. -/
def load_local_model (s : SamServiceState) : LoadOutcome → SamServiceState
  | .success => { model := some (), processor := some () }
  | .failEarly => s
  | .failAfterModel => { s with model := some () }

/-- unload_local_model: when a model is resident both fields are reset to
None (the del statements and cache flushes free memory only); when no
model is resident the body is skipped entirely, a no-op. -/
def unload_local_model (s : SamServiceState) : SamServiceState :=
  if s.model.isSome then { model := none, processor := none } else s

/-- Outcome of the big try block of generate_3d_masks_local once a model is
resident: either the per-point loop completes with a component list, or
some statement raises and the except clause runs. -/
inductive BodyOutcome
  | ok (comps : List SamComponent)
  | exn
deriving Repr

/-- State-and-result behaviour of generate_3d_masks_local: load on demand
when no model is resident; if still none, return [] at once; otherwise run
the body, and on both completion and exception call unload_local_model
before returning (the components on success, [] on exception). -/
def generate_3d_masks_local_state (s : SamServiceState) (lo : LoadOutcome)
    (bo : BodyOutcome) : SamServiceState × List SamComponent :=
  let s1 := if s.model.isSome then s else load_local_model s lo
  if s1.model.isSome then
    match bo with
    | .ok comps => (unload_local_model s1, comps)
    | .exn => (unload_local_model s1, [])
  else (s1, [])

/-- A component object parsed out of the generative (Gemini) JSON response.
The route never inspects the fields of these objects, only the list that
holds them, so they are embedded as raw JSON values. -/
structure GenComponent where
  raw : String
deriving DecidableEq, Repr

/-- Return value of generate_complex_components as the route observes it:
hasError is true exactly when the returned dict carries an "error" key
(its own except clause, the missing-image early return, a JSON extraction
or parse failure, or a parsed response that itself contains that key);
components and deviceType are the fields of the parsed JSON otherwise
(components empty when the key is absent). -/
structure GenReturn where
  hasError : Bool
  components : List GenComponent
  deviceType : String
deriving DecidableEq, Repr

/-- A placeholder component from the hard-coded catalog of
generate_placeholder_model. -/
structure PlaceholderComponent where
  id : String
  name : String
  position : Vec3
  scale : Vec3
  geometry : String
  color : String
  internal : Bool
  rotation : Option Vec3
deriving DecidableEq, Repr

/-- The smartphone entry of component_configs in generate_placeholder_model
(the only entry of the dict), transcribed value for value. -/
def smartphoneConfig : List PlaceholderComponent :=
  [ { id := "display", name := "Display Screen",
      position := ⟨0, 3/10, 1/25⟩, scale := ⟨7/20, 7/10, 1/100⟩,
      geometry := "box", color := "#1a1a2e", internal := false, rotation := none },
    { id := "cpu", name := "Processor",
      position := ⟨0, 1/10, 0⟩, scale := ⟨2/25, 2/25, 1/50⟩,
      geometry := "roundedBox", color := "#4a5568", internal := true, rotation := none },
    { id := "battery", name := "Battery",
      position := ⟨0, -(3/20), 0⟩, scale := ⟨3/10, 7/20, 3/100⟩,
      geometry := "box", color := "#2d3748", internal := true, rotation := none },
    { id := "camera", name := "Camera Module",
      position := ⟨-(3/25), 11/20, 3/100⟩, scale := ⟨3/25, 3/25, 1/50⟩,
      geometry := "cylinder", color := "#1a202c", internal := false,
      rotation := some ⟨3927/2500, 0, 0⟩ },
    { id := "memory", name := "RAM Module",
      position := ⟨2/25, 3/20, 0⟩, scale := ⟨3/50, 1/25, 1/100⟩,
      geometry := "box", color := "#718096", internal := true, rotation := none } ]

/-- Return value of generate_placeholder_model. -/
structure PlaceholderModel where
  modelUrl : String
  modelType : String
  components : List PlaceholderComponent
  deviceType : String
  boundsWidth : ℚ
  boundsHeight : ℚ
  boundsDepth : ℚ
deriving DecidableEq, Repr

/-- generate_placeholder_model: component_configs holds only the smartphone
entry, so component_configs.get(category, smartphone) resolves to the
smartphone catalog for every category; the bounds vary with the category
comparison. -/
def generate_placeholder_model (imageId : String) (category : String) :
    PlaceholderModel :=
  { modelUrl := "/models/" ++ imageId ++ ".glb",
    modelType := "placeholder",
    components := smartphoneConfig,
    deviceType := category,
    boundsWidth := if category = "smartphone" then 2/5 else 4/5,
    boundsHeight := if category = "smartphone" then 4/5 else 3/5,
    boundsDepth := 2/25 }

/-- The attributes the enrichment map of enrich_sam_components may assign
to a component id.  Of these, only the name survives into the fields this
embedding tracks; geometry, color and rotation land in dict keys outside
SamComponent and are carried here for completeness of the record. -/
structure EnrichAttrs where
  name : Option String
  geometry : Option String
  color : Option String
deriving DecidableEq, Repr

/-- Outcome of the Gemini enrichment call inside enrich_sam_components:
failure covers both a raised exception and a JSON extraction failure (the
function then returns the original list unchanged); mapped carries the
parsed id-to-attributes enrichment map. -/
inductive EnrichOutcome
  | failure
  | mapped (f : String → Option EnrichAttrs)

/-- enrich_sam_components: on failure the original list is returned
verbatim; otherwise every component is appended after its name (and, in
untracked keys, geometry, color, rotation) is updated when its id is in the
map.  The list structure, positions, scales and confidences are never
altered and the length is always preserved. -/
def enrich_sam_components (o : EnrichOutcome) (comps : List SamComponent) :
    List SamComponent :=
  match o with
  | .failure => comps
  | .mapped f =>
      comps.map (fun c =>
        match f c.id with
        | none => c
        | some attrs => { c with name := attrs.name.getD c.name })

/-- A component held in a route response: the segmented, generative and
placeholder tiers each contribute their own dict shape. -/
inductive RouteComponent
  | sam (c : SamComponent)
  | gen (g : GenComponent)
  | placeholder (p : PlaceholderComponent)
deriving DecidableEq, Repr

/-- The JSON body returned by the generate_3d route on success: keys absent
from a given tier's dict are None here. -/
structure RouteResult where
  deviceType : String
  components : List RouteComponent
  method : String
  processingTime : ℚ
  cached : Bool
  modelUrl : Option String
  note : Option String
deriving DecidableEq, Repr

/-- Outcome of the SAM tier as the route observes it inside its try block:
either the component list returned by generate_3d_masks (possibly short),
or an exception, which the route catches and treats as a fallthrough. -/
inductive SamOutcome
  | ok (components : List SamComponent)
  | exn

/-- The generative-or-placeholder part of the route: when the
generate_complex_components result carries an error key, substitute the
placeholder model with its note; in both cases the trailing statements set
processing_time, cached = False, method = gemini_procedural and
model_url = None. -/
def geminiTier (gen : GenReturn) (category imageId : String) (t : ℚ) :
    RouteResult :=
  if gen.hasError then
    { deviceType := category,
      components :=
        (generate_placeholder_model imageId category).components.map
          RouteComponent.placeholder,
      method := "gemini_procedural",
      processingTime := t,
      cached := false,
      modelUrl := none,
      note := some "Using placeholder model due to generation error." }
  else
    { deviceType := gen.deviceType,
      components := gen.components.map RouteComponent.gen,
      method := "gemini_procedural",
      processingTime := t,
      cached := false,
      modelUrl := none,
      note := none }

/-- The fallback cascade of the generate_3d route after a cache miss: when
the SAM tier returns at least five components (the truthiness test
sam_components and len >= 5), enrich and return them with
method local_sam_base_plus_gemini; on a short list or a SAM exception fall
through to the generative tier. -/
def runPipeline (samOut : SamOutcome) (gen : GenReturn) (en : EnrichOutcome)
    (category imageId : String) (t : ℚ) : RouteResult :=
  match samOut with
  | .ok comps =>
      if 5 ≤ comps.length then
        { deviceType := category,
          components :=
            (enrich_sam_components en comps).map RouteComponent.sam,
          method := "local_sam_base_plus_gemini",
          processingTime := t,
          cached := false,
          modelUrl := none,
          note := none }
      else geminiTier gen category imageId t
  | .exn => geminiTier gen category imageId t

/-- An HTTP-level response of the generate_3d route: a JSON payload or an
error with a status code. -/
inductive RouteResponse
  | ok (r : RouteResult)
  | err (msg : String) (code : ℕ)
deriving DecidableEq, Repr

/-- The generate_3d route handler: reject a missing image with a 404; on a
cache hit without force_regenerate return the cached result with cached set
to True, leaving the cache untouched and running no tier; otherwise run the
pipeline, write its result to the cache, and return it.  The returned
triple is (response, cache state after the call, whether the pipeline ran).
The cache state is the stored JSON for this image id (the key is the image
id alone). -/
def generate_3d (imageExists : Bool) (cache : Option RouteResult)
    (forceRegenerate : Bool) (samOut : SamOutcome) (gen : GenReturn)
    (en : EnrichOutcome) (category imageId : String) (t : ℚ) :
    RouteResponse × Option RouteResult × Bool :=
  if imageExists then
    match cache, forceRegenerate with
    | some r, false => (.ok { r with cached := true }, some r, false)
    | _, _ =>
        let r := runPipeline samOut gen en category imageId t
        (.ok r, some r, true)
  else (.err "Image not found" 404, cache, false)

/-- The JSON body of the generate-3d status route. -/
structure StatusResponse where
  sam3dAvailable : Bool
  methodsAvailable : List String
  recommendedMethod : String
deriving DecidableEq, Repr

/-- generation_status: the handler reads no server state and returns fixed
values (the source comment beside the True reads: We simulate this now).
The parameter records whether the segmentation model weights are present,
which the handler ignores. -/
def generation_status (_weightsPresent : Bool) : StatusResponse :=
  { sam3dAvailable := true,
    methodsAvailable := ["gemini_procedural"],
    recommendedMethod := "gemini_procedural" }

/-- Five concrete segmented components, pairwise far apart, used to
instantiate universally quantified theorems at a concrete input. -/
def demoSamComponents : List SamComponent :=
  [ freshComponent ⟨1/10, 1/10, 1/10, 1/10, 8/10⟩ 0,
    freshComponent ⟨3/10, 1/10, 1/10, 1/10, 8/10⟩ 1,
    freshComponent ⟨5/10, 1/10, 1/10, 1/10, 8/10⟩ 2,
    freshComponent ⟨7/10, 1/10, 1/10, 1/10, 8/10⟩ 3,
    freshComponent ⟨9/10, 1/10, 1/10, 1/10, 8/10⟩ 4 ]

/-- A concrete candidate used to instantiate theorems. -/
def demoCand : RawCand := ⟨1/2, 1/2, 1/4, 1/4, 8/10⟩

/-- Component used to instantiate the merge-step theorem: an accepted
component with recovered center (1/2, 1/2) and confidence 1/2. -/
def demoExisting : SamComponent := freshComponent ⟨1/2, 1/2, 3/10, 3/10, 1/2⟩ 0

/-! ## Helper lemmas -/

theorem firstTrue_eq_none (l : List Bool) (h : ∀ b ∈ l, b = false) :
    firstTrue l = none := by
  induction l with
  | nil => rfl
  | cons b rest ih =>
      have hb : b = false := h b (List.mem_cons_self _ _)
      have hrest := ih (fun x hx => h x (List.mem_cons_of_mem _ hx))
      simp [firstTrue, hb, hrest]

theorem rowsAny_all_false (m : Mask) (h : ∀ row ∈ m, ∀ b ∈ row, b = false) :
    ∀ b ∈ rowsAny m, b = false := by
  intro b hb
  simp only [rowsAny, List.mem_map] at hb
  obtain ⟨row, hrow, rfl⟩ := hb
  simp only [rowAny, List.any_eq_false, id]
  intro x hx
  simp [h row hrow x hx]

theorem enrich_length (o : EnrichOutcome) (comps : List SamComponent) :
    (enrich_sam_components o comps).length = comps.length := by
  cases o <;> simp [enrich_sam_components]

theorem runPipeline_cached (samOut : SamOutcome) (gen : GenReturn)
    (en : EnrichOutcome) (category imageId : String) (t : ℚ) :
    (runPipeline samOut gen en category imageId t).cached = false := by
  unfold runPipeline geminiTier
  cases samOut <;> dsimp only <;> split <;> (try split) <;> rfl

/-! ## C4: segmentation-availability status -/

/-- C4, counterexample: the status operation is claimed to return a
segmentation-availability flag that is false when the model weights are
absent; the handler instead returns the hard-coded value true even in the
weights-absent state. -/
theorem c4_counterexample : (generation_status false).sam3dAvailable = true := rfl

/-- C4, amended: the status operation returns the hard-coded availability
flag true regardless of whether the segmentation model can currently be
loaded; it does not reflect the presence of the model weights. -/
theorem c4_amended (weightsPresent : Bool) :
    (generation_status weightsPresent).sam3dAvailable = true := rfl

/-! ## C5: the 0.05 noise-filter boundary -/

/-- C5, counterexample: a detection whose normalized bbox width is exactly
0.05 (here bbox (ymin, ymax, xmin, xmax) = (0, 300, 0, 50) on a 1000 by
1000 image, score 0.8, height 0.3) is claimed to be rejected; the filter
w < 0.05 is strict, so the code accepts it and emits a candidate. -/
theorem c5_counterexample :
    (emitComponent 1000 1000 (8/10) (0, 300, 0, 50)).isSome = true := by
  norm_num [emitComponent]

/-- C5, amended: a detection with normalized bbox width exactly 0.05 is
accepted (the noise test w < 0.05 is strict), width 0.051 is likewise
accepted, and only widths strictly below 0.05 (for instance 0.049) are
rejected, all other fields passing their filters. -/
theorem c5_amended :
    (emitComponent 1000 1000 (8/10) (0, 300, 0, 50)).isSome = true ∧
    (emitComponent 1000 1000 (8/10) (0, 300, 0, 51)).isSome = true ∧
    (emitComponent 1000 1000 (8/10) (0, 300, 0, 49)).isSome = false := by
  norm_num [emitComponent]

/-! ## C6: the grid prompt sampler -/

/-- C6, counterexample: the claim states grid coordinates equal
(i + 0.5) * width / N exactly; for width 100 the first point's x
coordinate is int(0.5 * 100 / 6) = 8, not 25/3. -/
theorem c6_counterexample :
    (((gridPoints 100 100).getD 0 (0, 0)).1 : ℚ) ≠ ((0 : ℚ) + 1/2) * 100 / 6 := by
  have h8 : ((gridPoints 100 100).getD 0 (0, 0)).1 = 8 := by decide
  rw [h8]
  norm_num

/-- C6, amended: the sampler returns exactly 36 points, deterministically
from (width, height) alone; the point at position 6 * i + j has coordinates
int((i + 0.5) * width / 6) and int((j + 0.5) * height / 6), the floors of
the claimed exact cell-center values. -/
theorem c6_amended (w h i j : ℕ) (hi : i < 6) (hj : j < 6) :
    (gridPoints w h).length = 36 ∧
    (gridPoints w h).getD (6 * i + j) (0, 0) = (gridCoord i w, gridCoord j h) ∧
    gridCoord i w = ⌊(((i : ℚ) + 1/2) * w / 6 : ℚ)⌋₊ := by
  refine ⟨rfl, ?_, ?_⟩
  · interval_cases i <;> interval_cases j <;> rfl
  · have hcast : (((i : ℚ) + 1/2) * w / 6 : ℚ) =
        ((((2 * i + 1) * w : ℕ) : ℚ) / ((12 : ℕ) : ℚ)) := by
      push_cast
      ring
    rw [hcast, Nat.floor_div_nat]
    rfl

/-- C6, witness for the amended theorem at width = height = 100, i = j = 0:
the first grid point is (8, 8). -/
theorem c6_witness :
    (gridPoints 100 100).length = 36 ∧
    (gridPoints 100 100).getD 0 (0, 0) = (gridCoord 0 100, gridCoord 0 100) ∧
    gridCoord 0 100 = ⌊(((0 : ℚ) + 1/2) * 100 / 6 : ℚ)⌋₊ := by
  have h := c6_amended 100 100 0 0 (by decide) (by decide)
  simpa using h

/-! ## C1: the fallback cascade -/

/-- C1, counterexample: the endpoint is claimed to always return a
non-empty components list for an existing image; when the SAM tier raises
and the generative tier parses successfully but yields an empty component
list, the endpoint returns that empty list. -/
theorem c1_counterexample :
    (generate_3d true none false SamOutcome.exn ⟨false, [], "smartphone"⟩
        EnrichOutcome.failure "smartphone" "img" 0).1
      = RouteResponse.ok
          (geminiTier ⟨false, [], "smartphone"⟩ "smartphone" "img" 0) ∧
    (geminiTier ⟨false, [], "smartphone"⟩ "smartphone" "img" 0).components
      = [] := by
  constructor
  · rfl
  · simp [geminiTier]

/-- C1, amended: for every request whose image file exists, the endpoint
never propagates a tier failure as a request-level error (it always
answers with some result object); if segmentation yields at least five
components the enriched segmented set (non-empty, same length) is
returned; otherwise the generative tier is consulted: on a generative
error or parse failure the fixed non-empty placeholder set is returned,
while on generative success the parsed component list is returned as-is —
possibly empty, which is the sole gap in the claimed non-emptiness
guarantee. -/
theorem c1_amended (samOut : SamOutcome) (gen : GenReturn)
    (en : EnrichOutcome) (category imageId : String) (t : ℚ) :
    (∃ r, (generate_3d true none false samOut gen en category imageId t).1
        = RouteResponse.ok r) ∧
    (∀ comps, samOut = SamOutcome.ok comps → 5 ≤ comps.length →
      (runPipeline samOut gen en category imageId t).components
          = (enrich_sam_components en comps).map RouteComponent.sam ∧
      (runPipeline samOut gen en category imageId t).components ≠ []) ∧
    ((samOut = SamOutcome.exn ∨
        ∃ comps, samOut = SamOutcome.ok comps ∧ comps.length < 5) →
      gen.hasError = true →
      (runPipeline samOut gen en category imageId t).components
          = (generate_placeholder_model imageId category).components.map
              RouteComponent.placeholder ∧
      (runPipeline samOut gen en category imageId t).components ≠ []) ∧
    ((samOut = SamOutcome.exn ∨
        ∃ comps, samOut = SamOutcome.ok comps ∧ comps.length < 5) →
      gen.hasError = false →
      (runPipeline samOut gen en category imageId t).components
          = gen.components.map RouteComponent.gen) := by
  have hfall : ∀ _ : samOut = SamOutcome.exn ∨
      (∃ comps, samOut = SamOutcome.ok comps ∧ comps.length < 5),
      runPipeline samOut gen en category imageId t
        = geminiTier gen category imageId t := by
    rintro (rfl | ⟨comps, rfl, hlt⟩)
    · rfl
    · unfold runPipeline
      dsimp only
      rw [if_neg (by omega)]
  refine ⟨⟨runPipeline samOut gen en category imageId t, rfl⟩, ?_, ?_, ?_⟩
  · rintro comps rfl hlen
    unfold runPipeline
    dsimp only
    rw [if_pos hlen]
    refine ⟨rfl, ?_⟩
    intro hnil
    have hl := congrArg List.length hnil
    simp only [List.length_map, enrich_length, List.length_nil] at hl
    omega
  · intro h hgen
    rw [hfall h]
    unfold geminiTier
    rw [if_pos (by simp [hgen])]
    exact ⟨rfl, by simp [generate_placeholder_model, smartphoneConfig]⟩
  · intro h hgen
    rw [hfall h]
    unfold geminiTier
    rw [if_neg (by simp [hgen])]

/-- C1, witness for the amended theorem: a SAM tier returning five
far-apart components with a failing enrichment yields a non-empty result. -/
theorem c1_witness :
    (runPipeline (SamOutcome.ok demoSamComponents) ⟨true, [], "x"⟩
        EnrichOutcome.failure "smartphone" "img" 0).components ≠ [] :=
  ((c1_amended (SamOutcome.ok demoSamComponents) ⟨true, [], "x"⟩
      EnrichOutcome.failure "smartphone" "img" 0).2.1 demoSamComponents rfl
      (by simp [demoSamComponents])).2

/-! ## C8: cache idempotence -/

/-- C8, confirmed: calling the endpoint twice for the same image with
force_regenerate false returns, on the second call, the first result with
its cached flag set to true (the first result carries cached false), via
the cache and without running any tier — the second response does not even
depend on the second call's tier oracles; passing force_regenerate true
bypasses the cache and runs the pipeline again. -/
theorem c8_cache_idempotent (samOut samOut2 : SamOutcome)
    (gen gen2 : GenReturn) (en en2 : EnrichOutcome)
    (category imageId : String) (t t2 : ℚ) :
    (generate_3d true none false samOut gen en category imageId t).1
      = RouteResponse.ok (runPipeline samOut gen en category imageId t) ∧
    (runPipeline samOut gen en category imageId t).cached = false ∧
    (generate_3d true
        (generate_3d true none false samOut gen en category imageId t).2.1
        false samOut2 gen2 en2 category imageId t2).1
      = RouteResponse.ok
          { runPipeline samOut gen en category imageId t with cached := true } ∧
    (generate_3d true
        (generate_3d true none false samOut gen en category imageId t).2.1
        false samOut2 gen2 en2 category imageId t2).2.2 = false ∧
    (generate_3d true
        (generate_3d true none false samOut gen en category imageId t).2.1
        true samOut2 gen2 en2 category imageId t2).2.2 = true :=
  ⟨rfl, runPipeline_cached samOut gen en category imageId t, rfl, rfl, rfl⟩

/-! ## C9: model release after every run -/

/-- C9, confirmed: after every completed segmentation run, whether it ends
in success or failure, no model is resident: the model field is None, and
the processor field is None as well (given the reachable-state invariant
that the processor is never resident without the model); moreover
unload_local_model is a no-op when no model is loaded. -/
theorem c9_model_released (s : SamServiceState) (lo : LoadOutcome)
    (bo : BodyOutcome) (hinv : s.model = none → s.processor = none) :
    ((generate_3d_masks_local_state s lo bo).1.model = none ∧
     (generate_3d_masks_local_state s lo bo).1.processor = none) ∧
    (s.model = none → unload_local_model s = s) := by
  constructor
  · unfold generate_3d_masks_local_state
    by_cases hs : s.model.isSome
    · simp only [hs, if_true]
      cases bo <;> simp [unload_local_model, hs]
    · have hm : s.model = none := by
        cases h : s.model
        · rfl
        · rw [h] at hs; simp at hs
      cases lo with
      | success =>
          simp only [hs, if_false, Bool.false_eq_true]
          cases bo <;> simp [load_local_model, unload_local_model]
      | failEarly =>
          simp [hs, load_local_model, hm, hinv hm]
      | failAfterModel =>
          simp only [hs, if_false, Bool.false_eq_true]
          cases bo <;> simp [load_local_model, unload_local_model]
  · intro hm
    simp [unload_local_model, hm]

/-- C9, witness: a run started with nothing resident whose model load fails
ends with nothing resident, and unload on the empty state is a no-op. -/
theorem c9_witness :
    ((generate_3d_masks_local_state ⟨none, none⟩ LoadOutcome.failEarly
        BodyOutcome.exn).1.model = none ∧
     (generate_3d_masks_local_state ⟨none, none⟩ LoadOutcome.failEarly
        BodyOutcome.exn).1.processor = none) ∧
    (SamServiceState.model ⟨none, none⟩ = none →
      unload_local_model ⟨none, none⟩ = ⟨none, none⟩) :=
  c9_model_released ⟨none, none⟩ LoadOutcome.failEarly BodyOutcome.exn
    (fun _ => rfl)

/-! ## C10: all-false best mask -/

/-- C10, confirmed: when the selected best mask for a prompt point contains
no true pixels, the guard on np.any(rows) fires: the bounding-box
computation yields nothing (np.where is never indexed on an empty mask) and
the point emits no candidate, the loop moving on to the next point. -/
theorem c10_empty_mask (width height : ℕ) (scores : List ℚ)
    (masks : List Mask) (bi : ℕ) (s : ℚ)
    (hargmax : argmax scores = some (bi, s))
    (hempty : ∀ row ∈ masks.getD bi [], ∀ b ∈ row, b = false) :
    bboxOfMask (masks.getD bi []) = none ∧
    processPoint width height scores masks = none := by
  have hrows : firstTrue (rowsAny (masks.getD bi [])) = none :=
    firstTrue_eq_none _ (rowsAny_all_false _ hempty)
  have hbbox : bboxOfMask (masks.getD bi []) = none := by
    unfold bboxOfMask
    rw [hrows]
  refine ⟨hbbox, ?_⟩
  unfold processPoint
  rw [hargmax]
  dsimp only
  by_cases h7 : s < 7/10
  · rw [if_pos h7]
  · rw [if_neg h7, hbbox]

/-- C10, witness: a 2 by 2 all-false best mask with a passing score emits
nothing. -/
theorem c10_witness :
    bboxOfMask (([[[false, false], [false, false]]] : List Mask).getD 0 []) = none ∧
    processPoint 2 2 [8/10] [[[false, false], [false, false]]] = none :=
  c10_empty_mask 2 2 [8/10] [[[false, false], [false, false]]] 0 (8/10)
    rfl (by decide)

/-! ## C3: the per-point filter and the emitted formulas -/

/-- C3, confirmed: for a prompt point whose best mask has a bounding box,
a candidate is emitted iff the best score is at least 0.70, the bbox is
not near-full-image (not both w and h above 0.9) and not noise (neither w
nor h below 0.05); the emitted candidate receives
position = [(xc - 0.5) * 2, (0.5 - yc) * 2, 0.5 * w * h],
scale = [w, h, 0.02] and confidence equal to the best score. -/
theorem c3_filter_formulas (width height : ℕ) (scores : List ℚ)
    (masks : List Mask) (bi : ℕ) (s : ℚ) (ymin ymax xmin xmax : ℕ)
    (hargmax : argmax scores = some (bi, s))
    (hbbox : bboxOfMask (masks.getD bi []) = some (ymin, ymax, xmin, xmax)) :
    ((processPoint width height scores masks).isSome = true ↔
      ((7 : ℚ)/10 ≤ s ∧
        ¬((9 : ℚ)/10 < ((xmax : ℚ) - xmin) / width ∧
          (9 : ℚ)/10 < ((ymax : ℚ) - ymin) / height) ∧
        ¬(((xmax : ℚ) - xmin) / width < 1/20 ∨
          ((ymax : ℚ) - ymin) / height < 1/20))) ∧
    ∀ c, processPoint width height scores masks = some c →
      candPosition c =
        ⟨((((xmin : ℚ) + xmax) / 2 / width) - 1/2) * 2,
         (1/2 - (((ymin : ℚ) + ymax) / 2 / height)) * 2,
         (1/2) * ((((xmax : ℚ) - xmin) / width) *
                  (((ymax : ℚ) - ymin) / height))⟩ ∧
      candScale c = ⟨((xmax : ℚ) - xmin) / width,
                     ((ymax : ℚ) - ymin) / height, 1/50⟩ ∧
      c.score = s := by
  unfold processPoint
  rw [hargmax]
  dsimp only
  by_cases h7 : s < (7 : ℚ)/10
  · rw [if_pos h7]
    constructor
    · simp only [Option.isSome_none, Bool.false_eq_true, false_iff]
      intro h
      exact absurd h.1 (not_le.mpr h7)
    · intro c hc
      exact absurd hc (by simp)
  · rw [if_neg h7, hbbox]
    unfold emitComponent
    dsimp only
    by_cases hbig : (9 : ℚ)/10 < ((xmax : ℚ) - xmin) / width ∧
        (9 : ℚ)/10 < ((ymax : ℚ) - ymin) / height
    · rw [if_pos hbig]
      constructor
      · simp only [Option.isSome_none, Bool.false_eq_true, false_iff]
        intro h
        exact h.2.1 hbig
      · intro c hc
        exact absurd hc (by simp)
    · rw [if_neg hbig]
      by_cases hsmall : ((xmax : ℚ) - xmin) / width < 1/20 ∨
          ((ymax : ℚ) - ymin) / height < 1/20
      · rw [if_pos hsmall]
        constructor
        · simp only [Option.isSome_none, Bool.false_eq_true, false_iff]
          intro h
          exact h.2.2 hsmall
        · intro c hc
          exact absurd hc (by simp)
      · rw [if_neg hsmall]
        constructor
        · simp only [Option.isSome_some, true_iff]
          exact ⟨not_lt.mp h7, hbig, hsmall⟩
        · intro c hc
          have hc2 := Option.some.inj hc
          subst hc2
          refine ⟨?_, rfl, rfl⟩
          unfold candPosition
          dsimp only
          rw [Vec3.mk.injEq]
          refine ⟨rfl, rfl, by ring⟩

/-- C3, witness: on a 20 by 20 image, a single mask with bbox
(7, 13, 3, 8) and score 0.8 emits a candidate. -/
theorem c3_witness :
    (processPoint 20 20 [8/10] [rectMask 20 3 8 7 13]).isSome = true := by
  have h := c3_filter_formulas 20 20 [8/10] [rectMask 20 3 8 7 13]
    0 (8/10) 7 13 3 8 rfl (by decide)
  exact h.1.mpr (by norm_num)

/-! ## C7: the duplicate-merge step -/

theorem dedupScan_spec (cand : RawCand) :
    ∀ (comps : List SamComponent) (k : ℕ), k < comps.length →
    (∀ m, m < k →
      ¬ sqDist (candCenter cand)
          (recoveredCenter (comps.getD m dummyComponent)) < 1/100) →
    sqDist (candCenter cand)
        (recoveredCenter (comps.getD k dummyComponent)) < 1/100 →
    dedupScan cand comps =
      some (if (comps.getD k dummyComponent).confidence < cand.score then
              comps.set k (overwriteWith cand (comps.getD k dummyComponent))
            else comps) := by
  intro comps
  induction comps with
  | nil => intro k hk; simp at hk
  | cons e rest ih =>
      intro k hk hfirst hdup
      cases k with
      | zero =>
          simp only [List.getD_cons_zero] at hdup ⊢
          unfold dedupScan
          rw [if_pos hdup]
          by_cases hc : e.confidence < cand.score
          · rw [if_pos hc, if_pos hc]
            rfl
          · rw [if_neg hc, if_neg hc]
      | succ k =>
          have h0 := hfirst 0 (Nat.succ_pos k)
          simp only [List.getD_cons_zero] at h0
          unfold dedupScan
          rw [if_neg h0]
          have hk' : k < rest.length := by simpa using hk
          have hfirst' : ∀ m, m < k →
              ¬ sqDist (candCenter cand)
                  (recoveredCenter (rest.getD m dummyComponent)) < 1/100 := by
            intro m hm
            have hm2 := hfirst (m + 1) (by omega)
            simpa using hm2
          have hdup' : sqDist (candCenter cand)
              (recoveredCenter (rest.getD k dummyComponent)) < 1/100 := by
            simpa using hdup
          rw [ih k hk' hfirst' hdup']
          simp only [Option.map_some', List.getD_cons_succ, Option.some.injEq]
          by_cases hc : (rest.getD k dummyComponent).confidence < cand.score
          · rw [if_pos hc, if_pos hc]
            rfl
          · rw [if_neg hc, if_neg hc]

/-- C7, confirmed: when a new candidate is within the merge radius of an
accepted component (the first such, in list order, matching the loop's
break): if the candidate's confidence strictly exceeds the existing one's,
exactly that component is overwritten — x and y of its position, its scale
and its confidence take the candidate's values while its z position, id
and name are unchanged; otherwise the candidate is discarded and the list
is entirely unchanged; in both cases the list length is unchanged. -/
theorem c7_merge_step (comps : List SamComponent) (cand : RawCand) (k : ℕ)
    (hk : k < comps.length)
    (hfirst : ∀ m, m < k →
      ¬ sqDist (candCenter cand)
          (recoveredCenter (comps.getD m dummyComponent)) < 1/100)
    (hdup : sqDist (candCenter cand)
        (recoveredCenter (comps.getD k dummyComponent)) < 1/100) :
    (addCandidate comps cand).length = comps.length ∧
    ((comps.getD k dummyComponent).confidence < cand.score →
      addCandidate comps cand
        = comps.set k (overwriteWith cand (comps.getD k dummyComponent))) ∧
    (¬ (comps.getD k dummyComponent).confidence < cand.score →
      addCandidate comps cand = comps) ∧
    (overwriteWith cand (comps.getD k dummyComponent)).id
        = (comps.getD k dummyComponent).id ∧
    (overwriteWith cand (comps.getD k dummyComponent)).name
        = (comps.getD k dummyComponent).name ∧
    (overwriteWith cand (comps.getD k dummyComponent)).position.z
        = (comps.getD k dummyComponent).position.z ∧
    (overwriteWith cand (comps.getD k dummyComponent)).position.x
        = (cand.xCenter - 1/2) * 2 ∧
    (overwriteWith cand (comps.getD k dummyComponent)).position.y
        = (1/2 - cand.yCenter) * 2 ∧
    (overwriteWith cand (comps.getD k dummyComponent)).scale
        = candScale cand ∧
    (overwriteWith cand (comps.getD k dummyComponent)).confidence
        = cand.score := by
  have hscan := dedupScan_spec cand comps k hk hfirst hdup
  unfold addCandidate
  rw [hscan]
  refine ⟨?_, ?_, ?_, rfl, rfl, rfl, rfl, rfl, rfl, rfl⟩
  · dsimp only
    split
    · simp
    · rfl
  · intro hc
    rw [if_pos hc]
  · intro hc
    rw [if_neg hc]

/-- C7, witness: merging the higher-confidence demo candidate into a
one-element accepted list leaves the length at one. -/
theorem c7_witness : (addCandidate [demoExisting] demoCand).length = 1 :=
  (c7_merge_step [demoExisting] demoCand 0 (by simp)
      (fun m hm => absurd hm (by omega))
      (by norm_num [demoExisting, demoCand, freshComponent, recoveredCenter,
        candCenter, sqDist])).1

/-! ## C2: the pairwise dedup invariant -/

theorem dedupScan_length (cand : RawCand) :
    ∀ comps out, dedupScan cand comps = some out →
      out.length = comps.length := by
  intro comps
  induction comps with
  | nil => intro out h; simp [dedupScan] at h
  | cons e rest ih =>
      intro out h
      unfold dedupScan at h
      split at h
      · have h2 := Option.some.inj h
        subst h2
        simp
      · cases hsc : dedupScan cand rest with
        | none => rw [hsc] at h; simp at h
        | some a =>
            rw [hsc] at h
            simp only [Option.map_some', Option.some.injEq] at h
            subst h
            simp [ih a hsc]

theorem dedupScan_none_far (cand : RawCand) :
    ∀ comps, dedupScan cand comps = none →
      ∀ e ∈ comps, ¬ sqDist (candCenter cand) (recoveredCenter e) < 1/100 := by
  intro comps
  induction comps with
  | nil => intro _ e he; simp at he
  | cons x rest ih =>
      intro h e he
      unfold dedupScan at h
      split at h
      · exact absurd h (by simp)
      · rename_i hx
        have hrest : dedupScan cand rest = none := by
          cases hsc : dedupScan cand rest with
          | none => rfl
          | some a => rw [hsc] at h; simp at h
        rcases List.mem_cons.mp he with rfl | hmem
        · exact hx
        · exact ih hrest e hmem

theorem recoveredCenter_fresh (cand : RawCand) (n : ℕ) :
    recoveredCenter (freshComponent cand n) = candCenter cand := by
  unfold recoveredCenter freshComponent candCenter
  dsimp only
  rw [Prod.mk.injEq]
  constructor <;> ring

theorem recoveredCenter_overwrite (cand : RawCand) (e : SamComponent) :
    recoveredCenter (overwriteWith cand e) = candCenter cand := by
  unfold recoveredCenter overwriteWith candCenter
  dsimp only
  rw [Prod.mk.injEq]
  constructor <;> ring

theorem freshComponent_confidence (cand : RawCand) (n : ℕ) :
    (freshComponent cand n).confidence = cand.score := rfl

theorem sqDist_comm (a b : ℚ × ℚ) : sqDist a b = sqDist b a := by
  unfold sqDist
  ring

/-- C2, amended: every dedup step that appends a new component preserves
the pairwise merge-radius invariant — the appended component's center is
at distance at least 0.1 (squared distance at least 1/100) from every
previously accepted center; the invariant over a full run can only be
broken by the confidence-driven overwrite of an already accepted
component's center (see the counterexample). -/
theorem c2_amended (comps : List SamComponent) (cand : RawCand)
    (hfar : pairwiseFar comps)
    (hlen : (addCandidate comps cand).length = comps.length + 1) :
    pairwiseFar (addCandidate comps cand) := by
  have hnone : dedupScan cand comps = none := by
    cases hsc : dedupScan cand comps with
    | none => rfl
    | some out =>
        have h1 : addCandidate comps cand = out := by
          unfold addCandidate
          rw [hsc]
        have h2 := dedupScan_length cand comps out hsc
        rw [h1, h2] at hlen
        omega
  have hfarall := dedupScan_none_far cand comps hnone
  have hadd : addCandidate comps cand
      = comps ++ [freshComponent cand comps.length] := by
    unfold addCandidate
    rw [hnone]
  rw [hadd]
  unfold pairwiseFar at hfar ⊢
  rw [List.pairwise_append]
  refine ⟨hfar, List.pairwise_singleton _ _, ?_⟩
  intro a ha b hb
  simp only [List.mem_singleton] at hb
  subst hb
  unfold farApart
  rw [recoveredCenter_fresh, sqDist_comm]
  exact not_lt.mp (hfarall a ha)

/-- C2, witness for the amended theorem: appending the demo candidate to
an empty accepted list preserves the (trivial) invariant. -/
theorem c2_amended_witness : pairwiseFar (addCandidate [] demoCand) :=
  c2_amended [] demoCand List.Pairwise.nil rfl

/-- C2, counterexample: one full segmentation run over demoOracle accepts
components centered at x = 0.2 and x = 0.35 (distance 0.15, accepted),
then a third candidate at x = 0.275 with higher confidence overwrites the
first component's center; the final set holds two distinct components at
center distance 0.075 < 0.1 (squared distance 9/1600 < 1/100), refuting
the claimed pairwise invariant. -/
theorem c2_counterexample :
    2 ≤ (generate_3d_masks_local_output 20 20 demoOracle).length ∧
    ((generate_3d_masks_local_output 20 20 demoOracle).getD 0
        dummyComponent).position ≠
      ((generate_3d_masks_local_output 20 20 demoOracle).getD 1
        dummyComponent).position ∧
    sqDist
      (recoveredCenter ((generate_3d_masks_local_output 20 20 demoOracle).getD 0
        dummyComponent))
      (recoveredCenter ((generate_3d_masks_local_output 20 20 demoOracle).getD 1
        dummyComponent)) < 1/100 := by
  have hg : gridPoints 20 20 =
      [(1,1),(1,5),(1,8),(1,11),(1,15),(1,18),
       (5,1),(5,5),(5,8),(5,11),(5,15),(5,18),
       (8,1),(8,5),(8,8),(8,11),(8,15),(8,18),
       (11,1),(11,5),(11,8),(11,11),(11,15),(11,18),
       (15,1),(15,5),(15,8),(15,11),(15,15),(15,18),
       (18,1),(18,5),(18,8),(18,11),(18,15),(18,18)] := by decide
  have hb1 : bboxOfMask (rectMask 20 1 7 7 13) = some (7, 13, 1, 7) := by decide
  have hb2 : bboxOfMask (rectMask 20 4 10 7 13) = some (7, 13, 4, 10) := by decide
  have hb3 : bboxOfMask (rectMask 20 3 8 7 13) = some (7, 13, 3, 8) := by decide
  have ha0 : argmax [(0 : ℚ)] = some (0, 0) := rfl
  have ha8 : argmax [(4 : ℚ)/5] = some (0, 4/5) := rfl
  have ha9 : argmax [(9 : ℚ)/10] = some (0, 9/10) := rfl
  have hp0 : processPoint 20 20 [(0 : ℚ)] [] = none := by
    norm_num [processPoint, ha0]
  have hp1 : processPoint 20 20 [(4 : ℚ)/5] [rectMask 20 1 7 7 13]
      = some ⟨1/5, 1/2, 3/10, 3/10, 4/5⟩ := by
    norm_num [processPoint, ha8, hb1, emitComponent]
  have hp2 : processPoint 20 20 [(4 : ℚ)/5] [rectMask 20 4 10 7 13]
      = some ⟨7/20, 1/2, 3/10, 3/10, 4/5⟩ := by
    norm_num [processPoint, ha8, hb2, emitComponent]
  have hp3 : processPoint 20 20 [(9 : ℚ)/10] [rectMask 20 3 8 7 13]
      = some ⟨11/40, 1/2, 1/4, 3/10, 9/10⟩ := by
    norm_num [processPoint, ha9, hb3, emitComponent]
  have hout : generate_3d_masks_local_output 20 20 demoOracle =
      [overwriteWith ⟨11/40, 1/2, 1/4, 3/10, 9/10⟩
          (freshComponent ⟨1/5, 1/2, 3/10, 3/10, 4/5⟩ 0),
       freshComponent ⟨7/20, 1/2, 3/10, 3/10, 4/5⟩ 1] := by
    unfold generate_3d_masks_local_output
    rw [hg]
    norm_num [demoOracle, hp0, hp1, hp2, hp3, addCandidate, dedupScan,
      recoveredCenter_fresh, freshComponent_confidence, candCenter, sqDist]
  rw [hout]
  refine ⟨by simp, ?_, ?_⟩
  · simp only [List.getD_cons_zero, List.getD_cons_succ]
    norm_num [overwriteWith, freshComponent, Vec3.mk.injEq]
  · simp only [List.getD_cons_zero, List.getD_cons_succ]
    rw [recoveredCenter_overwrite, recoveredCenter_fresh]
    norm_num [candCenter, sqDist]

end Sourced
